import Mathlib

/-!
Verification of the SMAQ token-ledger and deferred-purchase settlement engine
of the Amorina backend.

The development shallowly embeds the relevant TypeScript sources:
  * `src/smaq-service/bank.ts`        — `SmaqBank` (`getBalance`, `charge`, `credit`)
  * `src/smaq-service/purchase-intent.ts` — `PurchaseIntentService`
  * `src/api/smaq/credit.ts` (part 1) — the public credit endpoint
  * `src/api/smaq/credit.ts` (part 2) — the unified top-up/purchase endpoint
  * `src/unnamed/part_006`            — the MercadoPago settlement webhook

Persistence round trips (Supabase rows, Google-Sheets rows) are represented as
explicit in-memory state that each operation threads through.  External
collaborators that only produce opaque values (MercadoPago preference ids and
checkout URLs, `Date.now()`, `Math.random()`) are passed in as parameters.
Fire-and-forget observers (Google Sheets logging, Google Wallet sync, the
`add_credits` side call for the `credits` product) never touch the ledger or
the intent store and are omitted.
-/

set_option linter.unusedVariables false

namespace Amorina

/-- Models JavaScript `String.prototype.toLowerCase` for the ASCII emails used
as account keys (`bank.ts` calls `email.toLowerCase()` before every lookup). -/
def lowerStr (s : String) : String := String.mk (s.data.map Char.toLower)

/-- Models JavaScript `String.prototype.toUpperCase` (used by
`PurchaseIntentService.generateIntentId`). -/
def upperStr (s : String) : String := String.mk (s.data.map Char.toUpper)

/-- Models JavaScript `String.prototype.startsWith` (used by the webhook to
recognise SMAQ top-up payments). -/
def jsStartsWith (s pre : String) : Bool := pre.data.isPrefixOf s.data

/-- Contiguous-sublist check on character lists, used to model JavaScript
`String.prototype.includes`. -/
def charsContain : List Char → List Char → Bool
  | _, [] => false
  | pat, c :: rest => pat.isPrefixOf (c :: rest) || charsContain pat rest

/-- Models JavaScript `String.prototype.includes` (used by `SmaqBank.charge`
to recognise the insufficient-balance error message). -/
def jsIncludes (s pat : String) : Bool :=
  pat.data.isPrefixOf s.data || charsContain pat.data s.data

/-- A row of the Supabase `citizens` table: the stored running balance
(`citizens.dracma_balance`).  The balance is an integer that may in principle
be negative if the stored data is corrupt. -/
structure Citizen where
  id : String
  email : String
  dracmaBalance : Int
deriving Repr, DecidableEq

/-- A row of the Supabase `dracma_transactions` table, as appended by
`record_dracma_transaction`: the signed amount is negative for charges and
positive for credits. -/
structure DracmaTxn where
  citizenId : String
  ptype : String
  amount : Int
  description : String
deriving Repr, DecidableEq

/-- The persistent state behind `SmaqBank`: the `citizens` balances and the
append-only `dracma_transactions` history. -/
structure BankState where
  citizens : List Citizen
  txns : List DracmaTxn
deriving Repr, DecidableEq

/-- The `citizens` lookup by e-mail used by `SmaqBank.getBalance` and
`SmaqBank.getCitizenId` (`.eq('email', email.toLowerCase()).single()`). -/
def findCitizenByEmail (st : BankState) (email : String) : Option Citizen :=
  st.citizens.find? (fun c => c.email == lowerStr email)

/-- The `citizens` lookup by primary key used inside
`record_dracma_transaction`. -/
def lookupCitizen (cs : List Citizen) (citizenId : String) : Option Citizen :=
  cs.find? (fun c => c.id == citizenId)

/-- The balance update performed by `record_dracma_transaction` on the row
with the given id. -/
def updCitizen (citizenId : String) (nb : Int) (x : Citizen) : Citizen :=
  if x.id == citizenId then { x with dracmaBalance := nb } else x

/-- `UPDATE citizens SET dracma_balance = nb WHERE id = citizenId`. -/
def setBalance (cs : List Citizen) (citizenId : String) (nb : Int) : List Citizen :=
  cs.map (updCitizen citizenId nb)

/-- Modelled from the spec: the Supabase SQL function
`record_dracma_transaction` invoked via RPC by `SmaqBank.charge` and
`SmaqBank.credit` is not under `src/` (only its callers are).  Per the spec it
is the atomic "read current aggregate, conditionally append, return new
aggregate" primitive (row lock per citizen): it adds the signed amount to the
stored balance, rejects a resulting negative balance with an error whose
message contains `Insufficient`, and otherwise appends one transaction row and
returns the new balance. -/
def record_dracma_transaction (st : BankState) (citizenId : String)
    (ptype : String) (amount : Int) (description : String) :
    Except String (BankState × Int) :=
  match lookupCitizen st.citizens citizenId with
  | none => .error "Citizen not found"
  | some c =>
    let nb := c.dracmaBalance + amount
    if nb < 0 then
      .error "Insufficient balance"
    else
      .ok (⟨setBalance st.citizens citizenId nb,
            st.txns ++ [⟨citizenId, ptype, amount, description⟩]⟩, nb)

/-- Result of `SmaqBank.charge` (`bank.ts`, `ChargeResult`). -/
structure ChargeResult where
  success : Bool
  newBalance : Int
  transactionId : Option String
  error : Option String
deriving Repr, DecidableEq

/-- Result of `SmaqBank.credit` (`bank.ts`, `CreditResult`). -/
structure CreditResult where
  success : Bool
  newBalance : Int
  transactionId : Option String
deriving Repr, DecidableEq

/-- `SmaqBank.getBalance` (`bank.ts` lines 78–92): reads
`citizens.dracma_balance` for the lowercased e-mail; a missing row yields `0`;
an existing row yields `parseFloat(data.dracma_balance) || 0`, i.e. the stored
numeric value itself (`|| 0` only replaces `NaN`/`0` by `0`), with no floor. -/
def SmaqBank.getBalance (st : BankState) (email : String) : Int :=
  match findCitizenByEmail st email with
  | none => 0
  | some c => c.dracmaBalance

/-- `SmaqBank.getCitizenId` (`bank.ts` lines 97–106). -/
def SmaqBank.getCitizenId (st : BankState) (email : String) : Option String :=
  (findCitizenByEmail st email).map (·.id)

/-- `SmaqBank.charge` (`bank.ts` lines 111–171): resolves the citizen id (a
missing citizen is a hard failure with no write), then calls
`record_dracma_transaction` with the negated amount; an `Insufficient` error
re-reads the balance and reports insufficiency; success returns the new
balance.  The transaction id produced by the database is not modelled. -/
def SmaqBank.charge (st : BankState) (email : String) (amount : Int)
    (app description : String) : BankState × ChargeResult :=
  match SmaqBank.getCitizenId st email with
  | none =>
    (st, ⟨false, 0, none, some ("Usuario no encontrado: " ++ email)⟩)
  | some citizenId =>
    match record_dracma_transaction st citizenId "consumo" (-amount)
        ("[" ++ app ++ "] " ++ description) with
    | .error msg =>
      if jsIncludes msg "Insufficient" then
        (st, ⟨false, SmaqBank.getBalance st email, none,
          some ("Saldo insuficiente. Tenés " ++ toString (SmaqBank.getBalance st email)
            ++ " SMAQ, necesitás " ++ toString amount ++ ".")⟩)
      else
        (st, ⟨false, 0, none, some msg⟩)
    | .ok (st2, nb) => (st2, ⟨true, nb, none, none⟩)

/-- `SmaqBank.credit` (`bank.ts` lines 176–226): resolves the citizen id (a
missing citizen returns `success: false, newBalance: 0` with no write), then
calls `record_dracma_transaction` with the positive amount; an empty
description is replaced by the default text. -/
def SmaqBank.credit (st : BankState) (email : String) (amount : Int)
    (source app description : String) : BankState × CreditResult :=
  match SmaqBank.getCitizenId st email with
  | none => (st, ⟨false, 0, none⟩)
  | some citizenId =>
    let descText := if description == "" then
        "Acreditación de " ++ toString amount ++ " SMAQ"
      else description
    match record_dracma_transaction st citizenId "acreditacion" amount
        ("[" ++ app ++ "] " ++ descText) with
    | .error _ => (st, ⟨false, 0, none⟩)
    | .ok (st2, nb) => (st2, ⟨true, nb, none⟩)

/-- `IntentStatus` (`purchase-intent.ts` line 10). -/
inductive IntentStatus where
  | pending
  | paid
  | completed
  | expired
  | cancelled
deriving Repr, DecidableEq

/-- A `PurchaseIntent` row of the `SMAQ_INTENTS` sheet (`purchase-intent.ts`).
`productData` is the opaque JSON payload (kept as a string); timestamps are
modelled as natural-number milliseconds (`Date.now()` values).  The
`userId`, `userName` and `walletObjectId` fields play no role in the ledger
or the state machine and are omitted. -/
structure PurchaseIntent where
  id : String
  userEmail : String
  productType : String
  productData : String
  smaqRequired : Int
  smaqTopup : Int
  arsAmount : Int
  mpPreferenceId : Option String
  createdAt : Nat
  expiresAt : Nat
  status : IntentStatus
deriving Repr, DecidableEq

/-- `PurchaseIntentService.generateIntentId` (`purchase-intent.ts` lines
89–93): concatenates the prefix, a base-36 timestamp and a random base-36
suffix, and uppercases the result.  The timestamp and random strings are
parameters of the model. -/
def generateIntentId (timestamp random : String) : String :=
  upperStr ("SMAQ-" ++ timestamp ++ "-" ++ random)

/-- `PurchaseIntentService.getIntent` (`purchase-intent.ts` lines 167–180):
scans the sheet and returns the first row whose ID column matches; no field
(in particular not `expiresAt`) is consulted beyond the id. -/
def getIntent (store : List PurchaseIntent) (intentId : String) :
    Option PurchaseIntent :=
  store.find? (fun row => row.id == intentId)

/-- `PurchaseIntentService.getIntentByExternalRef` (`purchase-intent.ts`
lines 185–187): the intent id itself is used as the MercadoPago external
reference, so this is exactly `getIntent`. -/
def getIntentByExternalRef (store : List PurchaseIntent) (externalRef : String) :
    Option PurchaseIntent :=
  getIntent store externalRef

/-- `PurchaseIntentService.updateStatus` (`purchase-intent.ts` lines 192–201):
finds the first row whose ID matches (`findRowByValue`) and overwrites its
status cell with the requested value; no current-status check is performed and
no transition is ever rejected. -/
def updateStatus : List PurchaseIntent → String → IntentStatus →
    List PurchaseIntent
  | [], _, _ => []
  | row :: rest, intentId, status =>
    if row.id == intentId then { row with status := status } :: rest
    else row :: updateStatus rest intentId status

/-- `PurchaseIntentService.markPaid` (`purchase-intent.ts` lines 206–209):
unconditionally writes `paid` and re-reads the intent. -/
def markPaid (store : List PurchaseIntent) (intentId : String) :
    List PurchaseIntent × Option PurchaseIntent :=
  let store2 := updateStatus store intentId .paid
  (store2, getIntent store2 intentId)

/-- `PurchaseIntentService.markCompleted` (`purchase-intent.ts` lines
214–216). -/
def markCompleted (store : List PurchaseIntent) (intentId : String) :
    List PurchaseIntent :=
  updateStatus store intentId .completed

/-- `PurchaseIntentService.setMpPreferenceId` (`purchase-intent.ts` lines
154–162): writes the preference id into the first row whose ID matches. -/
def setMpPreferenceId : List PurchaseIntent → String → String →
    List PurchaseIntent
  | [], _, _ => []
  | row :: rest, intentId, preferenceId =>
    if row.id == intentId then { row with mpPreferenceId := some preferenceId } :: rest
    else row :: setMpPreferenceId rest intentId preferenceId

/-- `PurchaseIntentService.createIntent` (`purchase-intent.ts` lines 98–149):
builds a fresh intent with `status = pending`, `arsAmount = smaqTopup * 1000`
and `expiresAt = now + 30 minutes`, and appends it to the sheet.  The id
components and the current time are parameters of the model. -/
def createIntent (store : List PurchaseIntent)
    (userEmail productType productData : String)
    (smaqRequired smaqTopup : Int)
    (idTimestamp idRandom : String) (now : Nat) :
    List PurchaseIntent × PurchaseIntent :=
  let intent : PurchaseIntent :=
    { id := generateIntentId idTimestamp idRandom
      userEmail := userEmail
      productType := productType
      productData := productData
      smaqRequired := smaqRequired
      smaqTopup := smaqTopup
      arsAmount := smaqTopup * 1000
      mpPreferenceId := none
      createdAt := now
      expiresAt := now + 30 * 60 * 1000
      status := .pending }
  (store ++ [intent], intent)

/-- The combined persistent state the settlement webhook acts on. -/
structure WorldState where
  bank : BankState
  intents : List PurchaseIntent
deriving Repr, DecidableEq

/-- The distinct exits of the settlement webhook (`src/unnamed/part_006`); the
HTTP response is `200` in every case, so the outcome records which branch
ran. -/
inductive WebhookOutcome where
  | notApproved
  | notSmaqTopup
  | intentNotFound
  | alreadyHandled
  | completedOk
  | stuckPaid
deriving Repr, DecidableEq

/-- The settlement webhook handler (`src/unnamed/part_006` lines 56–158) for a
payment notification, starting at the approval check: an unapproved payment is
ignored; a missing or non-`SMAQ-` external reference is ignored; a missing
intent or one whose status is not `pending` exits as already handled; otherwise
the intent is marked `paid`, the ledger is credited `smaqTopup` (the credit's
`success` flag is never inspected) and charged `smaqRequired`, and on charge
success the intent is marked `completed` while on charge failure it is left at
`paid`.  Wallet sync and the `add_credits` side call mutate neither the bank
nor the intent store and are omitted. -/
def onPaymentConfirmed (w : WorldState) (paymentStatus : String)
    (externalRef : Option String) : WorldState × WebhookOutcome :=
  if paymentStatus ≠ "APPROVED" then (w, .notApproved)
  else match externalRef with
  | none => (w, .notSmaqTopup)
  | some ref =>
    if ¬ jsStartsWith ref "SMAQ-" then (w, .notSmaqTopup)
    else match getIntentByExternalRef w.intents ref with
    | none => (w, .intentNotFound)
    | some intent =>
      if intent.status ≠ .pending then (w, .alreadyHandled)
      else
        let intents1 := (markPaid w.intents intent.id).1
        let creditStep := SmaqBank.credit w.bank intent.userEmail intent.smaqTopup
          "compra" "mercadopago"
          ("Top-up de " ++ toString intent.smaqTopup ++ " SMAQ via MercadoPago")
        let chargeStep := SmaqBank.charge creditStep.1 intent.userEmail
          intent.smaqRequired intent.productType
          ("Compra automática: " ++ intent.productType)
        if chargeStep.2.success then
          (⟨chargeStep.1, markCompleted intents1 intent.id⟩, .completedOk)
        else
          (⟨chargeStep.1, intents1⟩, .stuckPaid)

/-- Request body of the unified top-up/purchase endpoint
(`src/api/smaq/credit.ts`, second file, `TopupRequest`).  Absent optional
strings are modelled as `""` (falsy), the absent `suggestExtraSmaqs` as `0`
(its declared default). -/
structure TopupRequest where
  email : String
  productType : String
  productData : String
  smaqPrice : Int
  suggestExtraSmaqs : Int
deriving Repr, DecidableEq

/-- Responses of the top-up/purchase endpoint: the `400` validation answers,
the `400` failed-charge answer, the `200 action: charged` answer, and the
`200 action: topup_required` answer with its payload fields. -/
inductive TopupResponse where
  | badRequest (message : String)
  | chargeFailed (message : Option String)
  | charged (newBalance : Int)
  | topupRequired (intentId : String) (currentBalance smaqNeeded smaqToTopup arsAmount : Int)
      (checkoutUrl : String)
deriving Repr, DecidableEq

/-- The unified top-up/purchase endpoint (`src/api/smaq/credit.ts`, second
file, lines 121–250): after validation it reads the balance; if sufficient it
charges directly; otherwise it computes `smaqNeeded = smaqPrice - balance`,
creates a `pending` intent with `smaqRequired = smaqPrice` and
`smaqTopup = smaqNeeded + suggestExtraSmaqs`, creates a MercadoPago preference
for `smaqToTopup` (the preference id and checkout URL are returned by the
external payment collaborator and are parameters here), stores the preference
id on the intent, and answers `topup_required`. -/
def topupHandler (w : WorldState) (req : TopupRequest)
    (idTimestamp idRandom : String) (now : Nat)
    (mpPreferenceId mpCheckoutUrl : String) : WorldState × TopupResponse :=
  if req.email == "" then (w, .badRequest "Email requerido")
  else if req.productType == "" then (w, .badRequest "Tipo de producto requerido")
  else if req.smaqPrice ≤ 0 then (w, .badRequest "Precio SMAQ inválido")
  else
    let currentBalance := SmaqBank.getBalance w.bank req.email
    if currentBalance ≥ req.smaqPrice then
      let chargeStep := SmaqBank.charge w.bank req.email req.smaqPrice
        req.productType ("Compra: " ++ req.productType)
      if chargeStep.2.success then
        ({ w with bank := chargeStep.1 }, .charged chargeStep.2.newBalance)
      else
        ({ w with bank := chargeStep.1 }, .chargeFailed chargeStep.2.error)
    else
      let smaqNeeded := req.smaqPrice - currentBalance
      let smaqToTopup := smaqNeeded + req.suggestExtraSmaqs
      let created := createIntent w.intents req.email req.productType
        req.productData req.smaqPrice smaqToTopup idTimestamp idRandom now
      let intents2 := setMpPreferenceId created.1 created.2.id mpPreferenceId
      ({ w with intents := intents2 },
        .topupRequired created.2.id currentBalance smaqNeeded smaqToTopup
          (smaqToTopup * 1000) mpCheckoutUrl)

/-- Request body of the public credit endpoint (`src/api/smaq/credit.ts`,
first file, `CreditRequest`); an absent description is modelled as `""`
(falsy), matching `description || default`. -/
structure CreditEndpointRequest where
  email : String
  amount : Int
  source : String
  description : String
deriving Repr, DecidableEq

/-- Responses of the credit endpoint: the `400` validation answers and the
unconditional `200` answer, which always carries `success: true` together
with the `newBalance` taken from the `SmaqBank.credit` result. -/
inductive CreditEndpointResponse where
  | badRequest (message : String)
  | ok (success : Bool) (newBalance : Int)
deriving Repr, DecidableEq

/-- The public credit endpoint `POST /api/smaq/credit`
(`src/api/smaq/credit.ts`, first file, lines 22–90): validates the body, calls
`SmaqBank.credit`, and answers HTTP `200` with a hard-coded `success: true`
and the result's `newBalance`, without ever inspecting the result's own
`success` flag. -/
def creditEndpoint (st : BankState) (req : CreditEndpointRequest) :
    BankState × CreditEndpointResponse :=
  if req.email == "" then (st, .badRequest "Email requerido")
  else if req.amount ≤ 0 then (st, .badRequest "Monto inválido")
  else if req.source == "" then (st, .badRequest "Fuente requerida")
  else
    let creditStep := SmaqBank.credit st req.email req.amount req.source "system"
      (if req.description == "" then
        "Acreditación de " ++ toString req.amount ++ " SMAQ"
      else req.description)
    (creditStep.1, .ok true creditStep.2.newBalance)

/-! ### Helper lemmas about the embedded operations -/

theorem isPrefixOf_append_self (l m : List Char) : l.isPrefixOf (l ++ m) = true := by
  rw [List.isPrefixOf_iff_prefix]
  exact List.prefix_append l m

theorem updCitizen_email (citizenId : String) (nb : Int) (x : Citizen) :
    (updCitizen citizenId nb x).email = x.email := by
  unfold updCitizen
  split <;> rfl

theorem updCitizen_id (citizenId : String) (nb : Int) (x : Citizen) :
    (updCitizen citizenId nb x).id = x.id := by
  unfold updCitizen
  split <;> rfl

theorem updCitizen_self (nb : Int) (c : Citizen) :
    updCitizen c.id nb c = { c with dracmaBalance := nb } := by
  simp [updCitizen]

theorem findCitizenByEmail_setBalance (cs : List Citizen) (txns : List DracmaTxn)
    (citizenId : String) (nb : Int) (email : String) :
    findCitizenByEmail ⟨setBalance cs citizenId nb, txns⟩ email =
      (findCitizenByEmail ⟨cs, txns⟩ email).map (updCitizen citizenId nb) := by
  have hp : ((fun c : Citizen => c.email == lowerStr email) ∘ updCitizen citizenId nb)
      = (fun c : Citizen => c.email == lowerStr email) := by
    funext x
    simp [Function.comp, updCitizen_email]
  unfold findCitizenByEmail setBalance
  rw [List.find?_map, hp]

theorem lookupCitizen_setBalance (cs : List Citizen) (citizenId : String) (nb : Int)
    (key : String) :
    lookupCitizen (setBalance cs citizenId nb) key =
      (lookupCitizen cs key).map (updCitizen citizenId nb) := by
  have hp : ((fun c : Citizen => c.id == key) ∘ updCitizen citizenId nb)
      = (fun c : Citizen => c.id == key) := by
    funext x
    simp [Function.comp, updCitizen_id]
  unfold lookupCitizen setBalance
  rw [List.find?_map, hp]

theorem getIntent_some_id {store : List PurchaseIntent} {intentId : String}
    {r : PurchaseIntent} (h : getIntent store intentId = some r) : r.id = intentId := by
  unfold getIntent at h
  simpa using List.find?_some h

theorem getIntent_after_updateStatus (store : List PurchaseIntent) (intentId : String)
    (s : IntentStatus) :
    getIntent (updateStatus store intentId s) intentId =
      (getIntent store intentId).map (fun r => { r with status := s }) := by
  induction store with
  | nil => rfl
  | cons row rest ih =>
    by_cases h : row.id = intentId
    · simp [updateStatus, getIntent, List.find?, h]
    · have hb : (row.id == intentId) = false := by simpa using h
      simp only [updateStatus, getIntent, hb, Bool.false_eq_true, if_false] at ih ⊢
      rw [List.find?_cons_of_neg _ (by simp [hb]), List.find?_cons_of_neg _ (by simp [hb])]
      exact ih

theorem getIntent_append_fresh (store : List PurchaseIntent) (r : PurchaseIntent)
    (h : getIntent store r.id = none) : getIntent (store ++ [r]) r.id = some r := by
  unfold getIntent at h ⊢
  rw [List.find?_append, h]
  simp [List.find?]

theorem setMpPreferenceId_append_fresh (store : List PurchaseIntent) (r : PurchaseIntent)
    (p : String) (h : getIntent store r.id = none) :
    setMpPreferenceId (store ++ [r]) r.id p =
      store ++ [{ r with mpPreferenceId := some p }] := by
  induction store with
  | nil => simp [setMpPreferenceId]
  | cons row rest ih =>
    unfold getIntent at h ih
    by_cases hx : row.id = r.id
    · rw [List.find?_cons_of_pos _ (by simpa using hx)] at h
      exact absurd h (by simp)
    · rw [List.find?_cons_of_neg _ (by simpa using hx)] at h
      simp only [List.cons_append, setMpPreferenceId, beq_iff_eq, hx, if_false, if_neg hx,
        List.append_eq]
      rw [ih h]

theorem getBalance_found {st : BankState} {email : String} {c : Citizen}
    (h : findCitizenByEmail st email = some c) :
    SmaqBank.getBalance st email = c.dracmaBalance := by
  unfold SmaqBank.getBalance
  rw [h]

theorem generateIntentId_starts (timestamp random : String) :
    jsStartsWith (generateIntentId timestamp random) "SMAQ-" = true := by
  unfold jsStartsWith generateIntentId upperStr
  show "SMAQ-".data.isPrefixOf
    ((("SMAQ-" ++ timestamp ++ "-" ++ random)).data.map Char.toUpper) = true
  rw [String.data_append, String.data_append, String.data_append,
    List.map_append, List.map_append, List.map_append]
  have h1 : "SMAQ-".data.map Char.toUpper = "SMAQ-".data := by decide
  rw [h1, List.append_assoc, List.append_assoc]
  exact isPrefixOf_append_self _ _

theorem webhook_ignores_foreign_ref (w : WorldState) (ref : String)
    (h : jsStartsWith ref "SMAQ-" = false) :
    onPaymentConfirmed w "APPROVED" (some ref) = (w, .notSmaqTopup) := by
  unfold onPaymentConfirmed
  simp [h]

theorem credit_success {st : BankState} {email : String} (amount : Int)
    (source app description : String) {c : Citizen}
    (hc : findCitizenByEmail st email = some c)
    (hcid : lookupCitizen st.citizens c.id = some c)
    (hnb : 0 ≤ c.dracmaBalance + amount) :
    SmaqBank.credit st email amount source app description =
      (⟨setBalance st.citizens c.id (c.dracmaBalance + amount),
        st.txns ++ [⟨c.id, "acreditacion", amount,
          "[" ++ app ++ "] " ++ (if description == "" then
            "Acreditación de " ++ toString amount ++ " SMAQ" else description)⟩]⟩,
       ⟨true, c.dracmaBalance + amount, none⟩) := by
  simp only [SmaqBank.credit, SmaqBank.getCitizenId, hc, Option.map_some',
    record_dracma_transaction, hcid, if_neg (not_lt.mpr hnb)]

theorem charge_success {st : BankState} {email : String} (amount : Int)
    (app description : String) {c : Citizen}
    (hc : findCitizenByEmail st email = some c)
    (hcid : lookupCitizen st.citizens c.id = some c)
    (hnb : 0 ≤ c.dracmaBalance - amount) :
    SmaqBank.charge st email amount app description =
      (⟨setBalance st.citizens c.id (c.dracmaBalance - amount),
        st.txns ++ [⟨c.id, "consumo", -amount, "[" ++ app ++ "] " ++ description⟩]⟩,
       ⟨true, c.dracmaBalance - amount, none, none⟩) := by
  simp only [SmaqBank.charge, SmaqBank.getCitizenId, hc, Option.map_some',
    record_dracma_transaction, hcid, ← sub_eq_add_neg, if_neg (not_lt.mpr hnb)]

theorem charge_insufficient {st : BankState} {email : String} (amount : Int)
    (app description : String) {c : Citizen}
    (hc : findCitizenByEmail st email = some c)
    (hcid : lookupCitizen st.citizens c.id = some c)
    (hnb : c.dracmaBalance - amount < 0) :
    SmaqBank.charge st email amount app description =
      (st, ⟨false, c.dracmaBalance, none,
        some ("Saldo insuficiente. Tenés " ++ toString c.dracmaBalance
          ++ " SMAQ, necesitás " ++ toString amount ++ ".")⟩) := by
  have hnb' : c.dracmaBalance + -amount < 0 := by omega
  have hInc : jsIncludes "Insufficient balance" "Insufficient" = true := by decide
  simp only [SmaqBank.charge, SmaqBank.getCitizenId, hc, Option.map_some',
    record_dracma_transaction, hcid, if_pos hnb', hInc, if_true,
    getBalance_found hc]

theorem settle_success (w : WorldState) (ref : String) (intent : PurchaseIntent) (c : Citizen)
    (href : jsStartsWith ref "SMAQ-" = true)
    (hint : getIntent w.intents ref = some intent)
    (hpend : intent.status = .pending)
    (hc : findCitizenByEmail w.bank intent.userEmail = some c)
    (hcid : lookupCitizen w.bank.citizens c.id = some c)
    (hcr : 0 ≤ c.dracmaBalance + intent.smaqTopup)
    (hch : 0 ≤ c.dracmaBalance + intent.smaqTopup - intent.smaqRequired) :
    ∃ t1 t2 : DracmaTxn,
      onPaymentConfirmed w "APPROVED" (some ref) =
        (⟨⟨setBalance (setBalance w.bank.citizens c.id (c.dracmaBalance + intent.smaqTopup))
              c.id (c.dracmaBalance + intent.smaqTopup - intent.smaqRequired),
           w.bank.txns ++ [t1, t2]⟩,
          updateStatus (updateStatus w.intents ref .paid) ref .completed⟩,
         .completedOk)
      ∧ t1.citizenId = c.id ∧ t1.ptype = "acreditacion" ∧ t1.amount = intent.smaqTopup
      ∧ t2.citizenId = c.id ∧ t2.ptype = "consumo" ∧ t2.amount = -intent.smaqRequired := by
  have hid : intent.id = ref := getIntent_some_id hint
  have hcredit := credit_success intent.smaqTopup "compra" "mercadopago"
    ("Top-up de " ++ toString intent.smaqTopup ++ " SMAQ via MercadoPago") hc hcid hcr
  have hcAny : ∀ tx : List DracmaTxn,
      findCitizenByEmail ⟨w.bank.citizens, tx⟩ intent.userEmail = some c := fun _ => hc
  have hc1 : ∀ tx : List DracmaTxn,
      findCitizenByEmail
        ⟨setBalance w.bank.citizens c.id (c.dracmaBalance + intent.smaqTopup), tx⟩
        intent.userEmail
        = some { c with dracmaBalance := c.dracmaBalance + intent.smaqTopup } := by
    intro tx
    rw [findCitizenByEmail_setBalance, hcAny tx, Option.map_some', updCitizen_self]
  have hcid1 : lookupCitizen
      (setBalance w.bank.citizens c.id (c.dracmaBalance + intent.smaqTopup)) c.id
      = some { c with dracmaBalance := c.dracmaBalance + intent.smaqTopup } := by
    rw [lookupCitizen_setBalance, hcid, Option.map_some', updCitizen_self]
  have hchargeEq : ∀ tx : List DracmaTxn,
      SmaqBank.charge
        ⟨setBalance w.bank.citizens c.id (c.dracmaBalance + intent.smaqTopup), tx⟩
        intent.userEmail intent.smaqRequired intent.productType
        ("Compra automática: " ++ intent.productType) =
        (⟨setBalance (setBalance w.bank.citizens c.id (c.dracmaBalance + intent.smaqTopup))
            c.id (c.dracmaBalance + intent.smaqTopup - intent.smaqRequired),
          tx ++ [⟨c.id, "consumo", -intent.smaqRequired,
            "[" ++ intent.productType ++ "] " ++ ("Compra automática: " ++ intent.productType)⟩]⟩,
         ⟨true, c.dracmaBalance + intent.smaqTopup - intent.smaqRequired, none, none⟩) := by
    intro tx
    exact charge_success intent.smaqRequired intent.productType
      ("Compra automática: " ++ intent.productType) (hc1 tx) hcid1 hch
  refine ⟨⟨c.id, "acreditacion", intent.smaqTopup,
      "[" ++ "mercadopago" ++ "] "
        ++ (if ("Top-up de " ++ toString intent.smaqTopup ++ " SMAQ via MercadoPago") == ""
            then "Acreditación de " ++ toString intent.smaqTopup ++ " SMAQ"
            else "Top-up de " ++ toString intent.smaqTopup ++ " SMAQ via MercadoPago")⟩,
    ⟨c.id, "consumo", -intent.smaqRequired,
      "[" ++ intent.productType ++ "] " ++ ("Compra automática: " ++ intent.productType)⟩,
    ?_, rfl, rfl, rfl, rfl, rfl, rfl⟩
  simp only [onPaymentConfirmed, getIntentByExternalRef, hint, href, hpend, markPaid,
    markCompleted, ne_eq, not_true_eq_false, Bool.not_true, if_false]
  rw [hcredit]
  simp only []
  rw [hchargeEq _]
  simp [hid, List.append_assoc]

theorem settle_stuck (w : WorldState) (ref : String) (intent : PurchaseIntent) (c : Citizen)
    (href : jsStartsWith ref "SMAQ-" = true)
    (hint : getIntent w.intents ref = some intent)
    (hpend : intent.status = .pending)
    (hc : findCitizenByEmail w.bank intent.userEmail = some c)
    (hcid : lookupCitizen w.bank.citizens c.id = some c)
    (hcr : 0 ≤ c.dracmaBalance + intent.smaqTopup)
    (hch : c.dracmaBalance + intent.smaqTopup - intent.smaqRequired < 0) :
    ∃ t1 : DracmaTxn,
      onPaymentConfirmed w "APPROVED" (some ref) =
        (⟨⟨setBalance w.bank.citizens c.id (c.dracmaBalance + intent.smaqTopup),
           w.bank.txns ++ [t1]⟩,
          updateStatus w.intents ref .paid⟩,
         .stuckPaid)
      ∧ t1.citizenId = c.id ∧ t1.ptype = "acreditacion" ∧ t1.amount = intent.smaqTopup := by
  have hid : intent.id = ref := getIntent_some_id hint
  have hcredit := credit_success intent.smaqTopup "compra" "mercadopago"
    ("Top-up de " ++ toString intent.smaqTopup ++ " SMAQ via MercadoPago") hc hcid hcr
  have hcAny : ∀ tx : List DracmaTxn,
      findCitizenByEmail ⟨w.bank.citizens, tx⟩ intent.userEmail = some c := fun _ => hc
  have hc1 : ∀ tx : List DracmaTxn,
      findCitizenByEmail
        ⟨setBalance w.bank.citizens c.id (c.dracmaBalance + intent.smaqTopup), tx⟩
        intent.userEmail
        = some { c with dracmaBalance := c.dracmaBalance + intent.smaqTopup } := by
    intro tx
    rw [findCitizenByEmail_setBalance, hcAny tx, Option.map_some', updCitizen_self]
  have hcid1 : lookupCitizen
      (setBalance w.bank.citizens c.id (c.dracmaBalance + intent.smaqTopup)) c.id
      = some { c with dracmaBalance := c.dracmaBalance + intent.smaqTopup } := by
    rw [lookupCitizen_setBalance, hcid, Option.map_some', updCitizen_self]
  have hchargeEq : ∀ tx : List DracmaTxn,
      SmaqBank.charge
        ⟨setBalance w.bank.citizens c.id (c.dracmaBalance + intent.smaqTopup), tx⟩
        intent.userEmail intent.smaqRequired intent.productType
        ("Compra automática: " ++ intent.productType) =
        (⟨setBalance w.bank.citizens c.id (c.dracmaBalance + intent.smaqTopup), tx⟩,
         ⟨false, c.dracmaBalance + intent.smaqTopup, none,
          some ("Saldo insuficiente. Tenés " ++ toString (c.dracmaBalance + intent.smaqTopup)
            ++ " SMAQ, necesitás " ++ toString intent.smaqRequired ++ ".")⟩) := by
    intro tx
    exact charge_insufficient intent.smaqRequired intent.productType
      ("Compra automática: " ++ intent.productType) (hc1 tx) hcid1 hch
  refine ⟨⟨c.id, "acreditacion", intent.smaqTopup,
      "[" ++ "mercadopago" ++ "] "
        ++ (if ("Top-up de " ++ toString intent.smaqTopup ++ " SMAQ via MercadoPago") == ""
            then "Acreditación de " ++ toString intent.smaqTopup ++ " SMAQ"
            else "Top-up de " ++ toString intent.smaqTopup ++ " SMAQ via MercadoPago")⟩,
    ?_, rfl, rfl, rfl⟩
  simp only [onPaymentConfirmed, getIntentByExternalRef, hint, href, hpend, markPaid,
    markCompleted, ne_eq, not_true_eq_false, Bool.not_true, if_false]
  rw [hcredit]
  simp only []
  rw [hchargeEq _]
  simp [hid]

/-! ### Concrete fixtures used by witnesses and counterexamples -/

/-- A bank with no citizens and no transactions. -/
def emptyBank : BankState := ⟨[], []⟩

/-- A world with no citizens, transactions or intents. -/
def emptyWorld : WorldState := ⟨emptyBank, []⟩

/-- A bank whose only citizen has a corrupt (negative) stored balance. -/
def corruptBank : BankState := ⟨[⟨"c1", "ana@amorina.club", -5⟩], []⟩

/-- A pending intent fixture for the state-machine claims. -/
def intentPendingA : PurchaseIntent :=
  ⟨"SMAQ-A1", "ana@amorina.club", "cine", "{}", 6000, 4000, 4000000, none, 0, 1800000, .pending⟩

/-! ### C2 -/

/-- C2, counterexample: the stored-intent transition operation does not reject
any transition.  On a store holding a single `pending` intent, requesting the
target status `completed` simply writes `completed` (the spec's state machine
forbids `pending -> completed` and demands an `InvalidStateTransition`
error, but `updateStatus` has no error path at all). -/
theorem C2_counterexample :
    getIntent [intentPendingA] "SMAQ-A1" = some intentPendingA ∧
    intentPendingA.status = .pending ∧
    updateStatus [intentPendingA] "SMAQ-A1" IntentStatus.completed
      = [{ intentPendingA with status := .completed }] := by
  refine ⟨?_, rfl, ?_⟩ <;> rfl

/-- C2, amended: `updateStatus` (the transition operation of the intent
store) unconditionally overwrites the status of the first stored intent with
the requested id by the requested target status, whatever the current status
and whatever the target; no transition of the state machine is validated and
no invalid-state error exists. -/
theorem C2_updateStatus_unvalidated (store : List PurchaseIntent) (intentId : String)
    (target : IntentStatus) (intent : PurchaseIntent)
    (h : getIntent store intentId = some intent) :
    getIntent (updateStatus store intentId target) intentId
      = some { intent with status := target } := by
  rw [getIntent_after_updateStatus, h, Option.map_some']

/-- C2, witness: the amended theorem evaluated on the concrete one-intent
store, moving `pending` directly to `completed`. -/
theorem C2_witness :
    getIntent (updateStatus [intentPendingA] "SMAQ-A1" IntentStatus.completed) "SMAQ-A1"
      = some { intentPendingA with status := .completed } :=
  C2_updateStatus_unvalidated [intentPendingA] "SMAQ-A1" IntentStatus.completed
    intentPendingA (by rfl)

/-! ### C4 -/

/-- C4, counterexample: `getBalance` does not floor a corrupt negative stored
balance at zero — on a bank whose stored balance is `-5` it returns `-5`,
refuting the claim that the returned value is always non-negative. -/
theorem C4_counterexample :
    SmaqBank.getBalance corruptBank "ana@amorina.club" = -5 ∧
    ¬ (0 ≤ SmaqBank.getBalance corruptBank "ana@amorina.club") := by
  refine ⟨rfl, ?_⟩
  decide

/-- C4, amended: `getBalance` returns `0` when the account has no `citizens`
row, and otherwise returns the stored balance unchanged — including negative
values: a corrupt negative underlying sum is passed through, not floored at
zero. -/
theorem C4_getBalance_no_floor :
    (∀ (st : BankState) (email : String), findCitizenByEmail st email = none →
      SmaqBank.getBalance st email = 0) ∧
    (∀ (st : BankState) (email : String) (c : Citizen),
      findCitizenByEmail st email = some c →
      SmaqBank.getBalance st email = c.dracmaBalance) := by
  constructor
  · intro st email h
    unfold SmaqBank.getBalance
    rw [h]
  · intro st email c h
    unfold SmaqBank.getBalance
    rw [h]

/-- C4, witness: the amended theorem evaluated on the corrupt bank: the
stored `-5` comes straight back. -/
theorem C4_witness :
    SmaqBank.getBalance corruptBank "ana@amorina.club" = (-5 : Int) :=
  C4_getBalance_no_floor.2 corruptBank "ana@amorina.club"
    ⟨"c1", "ana@amorina.club", -5⟩ (by rfl)

/-! ### C8 -/

/-- C8: for an account with no `citizens` row, `getBalance` returns `0`
(missing account treated as balance zero), while `charge` on the same account
is a hard failure: it returns `success = false` and leaves the bank state —
in particular the transaction history — completely unchanged (no entry is
written). -/
theorem C8_missing_account_read_vs_charge (st : BankState) (email : String)
    (amount : Int) (app description : String)
    (h : findCitizenByEmail st email = none) :
    SmaqBank.getBalance st email = 0 ∧
    SmaqBank.charge st email amount app description
      = (st, ⟨false, 0, none, some ("Usuario no encontrado: " ++ email)⟩) := by
  constructor
  · unfold SmaqBank.getBalance
    rw [h]
  · unfold SmaqBank.charge SmaqBank.getCitizenId
    rw [h]
    rfl

/-- C8, witness: the theorem evaluated on the empty bank at a concrete
account. -/
theorem C8_witness :
    SmaqBank.getBalance emptyBank "ghost@amorina.club" = 0 ∧
    SmaqBank.charge emptyBank "ghost@amorina.club" 100 "cine" "Compra"
      = (emptyBank, ⟨false, 0, none,
          some ("Usuario no encontrado: " ++ "ghost@amorina.club")⟩) :=
  C8_missing_account_read_vs_charge emptyBank "ghost@amorina.club" 100 "cine" "Compra"
    (by rfl)

/-! ### C9 -/

/-- C9: every id produced by the intent-id generator starts with the
uppercase prefix `SMAQ-` (so every intent the orchestrator creates is
recognizable by the settlement webhook), and the settlement webhook ignores —
returning the state untouched, hence without writing to the ledger or the
intent store — any approved payment whose external reference does not start
with `SMAQ-`. -/
theorem C9_smaq_prefix_recognition :
    (∀ timestamp random : String,
      jsStartsWith (generateIntentId timestamp random) "SMAQ-" = true) ∧
    (∀ (w : WorldState) (ref : String), jsStartsWith ref "SMAQ-" = false →
      onPaymentConfirmed w "APPROVED" (some ref) = (w, .notSmaqTopup)) :=
  ⟨generateIntentId_starts, webhook_ignores_foreign_ref⟩

/-- C9, witness: a generated id carries the prefix, and a MercadoPago-style
foreign reference is ignored by the webhook on the empty world. -/
theorem C9_witness :
    jsStartsWith (generateIntentId "m3abc" "x7z2") "SMAQ-" = true ∧
    onPaymentConfirmed emptyWorld "APPROVED" (some "MP-123456")
      = (emptyWorld, .notSmaqTopup) :=
  ⟨C9_smaq_prefix_recognition.1 "m3abc" "x7z2",
   C9_smaq_prefix_recognition.2 emptyWorld "MP-123456" (by decide)⟩

/-! ### C10 -/

/-- C10: the public credit endpoint never inspects the `success` flag of the
underlying `SmaqBank.credit` call.  When the account does not exist the
credit fails (`success = false, newBalance = 0`, no state change, whatever
description is used), yet the endpoint still answers HTTP `200` with
`success: true` and `newBalance = 0`. -/
theorem C10_credit_endpoint_false_success (st : BankState) (req : CreditEndpointRequest)
    (h1 : req.email ≠ "") (h2 : 0 < req.amount) (h3 : req.source ≠ "")
    (h4 : findCitizenByEmail st req.email = none) :
    (∀ description,
      SmaqBank.credit st req.email req.amount req.source "system" description
        = (st, ⟨false, 0, none⟩)) ∧
    creditEndpoint st req = (st, .ok true 0) := by
  have hcred : ∀ description,
      SmaqBank.credit st req.email req.amount req.source "system" description
        = (st, ⟨false, 0, none⟩) := by
    intro description
    unfold SmaqBank.credit SmaqBank.getCitizenId
    rw [h4]
    rfl
  refine ⟨hcred, ?_⟩
  unfold creditEndpoint
  rw [if_neg (by simpa using h1), if_neg (by omega), if_neg (by simpa using h3), hcred]

/-- C10, witness: the theorem evaluated on the empty bank with a concrete
well-formed request body. -/
theorem C10_witness :
    SmaqBank.credit emptyBank "ghost@amorina.club" 50 "regalo" "system" "Regalo SMAQ"
      = (emptyBank, ⟨false, 0, none⟩) ∧
    creditEndpoint emptyBank ⟨"ghost@amorina.club", 50, "regalo", "Regalo SMAQ"⟩
      = (emptyBank, .ok true 0) :=
  ⟨(C10_credit_endpoint_false_success emptyBank
      ⟨"ghost@amorina.club", 50, "regalo", "Regalo SMAQ"⟩
      (by decide) (by decide) (by decide) (by rfl)).1 "Regalo SMAQ",
   (C10_credit_endpoint_false_success emptyBank
      ⟨"ghost@amorina.club", 50, "regalo", "Regalo SMAQ"⟩
      (by decide) (by decide) (by decide) (by rfl)).2⟩

/-! ### C3 and C1 (settlement success path) -/

theorem findCitizenByEmail_single_set (cs : List Citizen) (tx : List DracmaTxn)
    (c : Citizen) (email : String)
    (hc : cs.find? (fun x => x.email == lowerStr email) = some c) (n1 : Int) :
    findCitizenByEmail ⟨setBalance cs c.id n1, tx⟩ email
      = some { c with dracmaBalance := n1 } := by
  have hbase : findCitizenByEmail (⟨cs, tx⟩ : BankState) email = some c := hc
  rw [findCitizenByEmail_setBalance, hbase, Option.map_some']
  simp [updCitizen]

theorem findCitizenByEmail_double_set (cs : List Citizen) (tx : List DracmaTxn)
    (c : Citizen) (email : String)
    (hc : cs.find? (fun x => x.email == lowerStr email) = some c) (n1 n2 : Int) :
    findCitizenByEmail ⟨setBalance (setBalance cs c.id n1) c.id n2, tx⟩ email
      = some { c with dracmaBalance := n2 } := by
  have hbase : findCitizenByEmail (⟨cs, tx⟩ : BankState) email = some c := hc
  rw [findCitizenByEmail_setBalance, findCitizenByEmail_setBalance, hbase,
    Option.map_some', Option.map_some']
  simp [updCitizen]

/-- C3: for a pending intent found by its reference, held by an existing
account with stored balance `B`, requiring `R` and topping up `T`, a confirmed
payment credits `T`, charges `R`, marks the intent `completed` and leaves the
account balance at `B + T - R` (under the shortfall arithmetic
`0 ≤ B + T - R` that makes the final charge succeed). -/
theorem C3_settlement_arithmetic (w : WorldState) (ref : String)
    (intent : PurchaseIntent) (c : Citizen)
    (href : jsStartsWith ref "SMAQ-" = true)
    (hint : getIntent w.intents ref = some intent)
    (hpend : intent.status = .pending)
    (hc : findCitizenByEmail w.bank intent.userEmail = some c)
    (hcid : lookupCitizen w.bank.citizens c.id = some c)
    (hcr : 0 ≤ c.dracmaBalance + intent.smaqTopup)
    (hch : 0 ≤ c.dracmaBalance + intent.smaqTopup - intent.smaqRequired) :
    (onPaymentConfirmed w "APPROVED" (some ref)).2 = .completedOk ∧
    SmaqBank.getBalance (onPaymentConfirmed w "APPROVED" (some ref)).1.bank intent.userEmail
      = c.dracmaBalance + intent.smaqTopup - intent.smaqRequired ∧
    (getIntent (onPaymentConfirmed w "APPROVED" (some ref)).1.intents ref).map (·.status)
      = some .completed := by
  obtain ⟨t1, t2, heq, -, -, -, -, -, -⟩ :=
    settle_success w ref intent c href hint hpend hc hcid hcr hch
  rw [heq]
  refine ⟨rfl, ?_, ?_⟩
  · exact getBalance_found (findCitizenByEmail_double_set w.bank.citizens
      (w.bank.txns ++ [t1, t2]) c intent.userEmail hc
      (c.dracmaBalance + intent.smaqTopup)
      (c.dracmaBalance + intent.smaqTopup - intent.smaqRequired))
  · rw [getIntent_after_updateStatus, getIntent_after_updateStatus, hint]
    rfl

/-- A complete settlement fixture: account `ana@amorina.club` with balance
2000, pending intent `SMAQ-1` with `smaqRequired = 6000`,
`smaqTopup = 4000`. -/
def citizenAna : Citizen := ⟨"c1", "ana@amorina.club", 2000⟩

/-- The pending 6000/4000 intent of the settlement scenario. -/
def intentTopup : PurchaseIntent :=
  ⟨"SMAQ-1", "ana@amorina.club", "cine", "{}", 6000, 4000, 4000000, none, 0, 1800000, .pending⟩

/-- The settlement-scenario world. -/
def settleWorld : WorldState := ⟨⟨[citizenAna], []⟩, [intentTopup]⟩

/-- C3, witness: the spec's concrete scenario — balance 2000, top-up 4000,
price 6000 — settles to balance `2000 + 4000 - 6000 = 0` with the intent
`completed`. -/
theorem C3_witness :
    (onPaymentConfirmed settleWorld "APPROVED" (some "SMAQ-1")).2 = .completedOk ∧
    SmaqBank.getBalance (onPaymentConfirmed settleWorld "APPROVED" (some "SMAQ-1")).1.bank
      "ana@amorina.club" = 2000 + 4000 - 6000 ∧
    (getIntent (onPaymentConfirmed settleWorld "APPROVED" (some "SMAQ-1")).1.intents
      "SMAQ-1").map (·.status) = some .completed :=
  C3_settlement_arithmetic settleWorld "SMAQ-1" intentTopup citizenAna
    (by decide) (by rfl) rfl (by rfl) (by rfl) (by decide) (by decide)

/-- C1: the settlement handler is idempotent for a given external reference.
A first call on a pending intent appends exactly one credit entry (of the
intent's `smaqTopup`) and exactly one charge entry (of the intent's
`smaqRequired`) to the ledger, and a second call with the same reference finds
the intent no longer `pending`, changes nothing, and exits as the
already-handled no-op. -/
theorem C1_settlement_idempotent (w : WorldState) (ref : String)
    (intent : PurchaseIntent) (c : Citizen)
    (href : jsStartsWith ref "SMAQ-" = true)
    (hint : getIntent w.intents ref = some intent)
    (hpend : intent.status = .pending)
    (hc : findCitizenByEmail w.bank intent.userEmail = some c)
    (hcid : lookupCitizen w.bank.citizens c.id = some c)
    (hcr : 0 ≤ c.dracmaBalance + intent.smaqTopup)
    (hch : 0 ≤ c.dracmaBalance + intent.smaqTopup - intent.smaqRequired) :
    (∃ t1 t2 : DracmaTxn,
      (onPaymentConfirmed w "APPROVED" (some ref)).1.bank.txns
        = w.bank.txns ++ [t1, t2]
      ∧ t1.ptype = "acreditacion" ∧ t1.amount = intent.smaqTopup
      ∧ t2.ptype = "consumo" ∧ t2.amount = -intent.smaqRequired) ∧
    onPaymentConfirmed (onPaymentConfirmed w "APPROVED" (some ref)).1 "APPROVED" (some ref)
      = ((onPaymentConfirmed w "APPROVED" (some ref)).1, .alreadyHandled) := by
  obtain ⟨t1, t2, heq, hcit1, hp1, ha1, hcit2, hp2, ha2⟩ :=
    settle_success w ref intent c href hint hpend hc hcid hcr hch
  rw [heq]
  constructor
  · exact ⟨t1, t2, rfl, hp1, ha1, hp2, ha2⟩
  · have hint2 : getIntent
        (updateStatus (updateStatus w.intents ref .paid) ref .completed) ref
        = some { intent with status := .completed } := by
      rw [getIntent_after_updateStatus, getIntent_after_updateStatus, hint]
      rfl
    simp only [onPaymentConfirmed, getIntentByExternalRef, href, hint2, ne_eq,
      not_true_eq_false, Bool.not_true, if_false]
    simp

/-- C1, witness: on the settlement scenario, the first webhook call appends
exactly the credit/charge pair and the second call is the no-op. -/
theorem C1_witness :
    (∃ t1 t2 : DracmaTxn,
      (onPaymentConfirmed settleWorld "APPROVED" (some "SMAQ-1")).1.bank.txns
        = settleWorld.bank.txns ++ [t1, t2]
      ∧ t1.ptype = "acreditacion" ∧ t1.amount = intentTopup.smaqTopup
      ∧ t2.ptype = "consumo" ∧ t2.amount = -intentTopup.smaqRequired) ∧
    onPaymentConfirmed (onPaymentConfirmed settleWorld "APPROVED" (some "SMAQ-1")).1
        "APPROVED" (some "SMAQ-1")
      = ((onPaymentConfirmed settleWorld "APPROVED" (some "SMAQ-1")).1, .alreadyHandled) :=
  C1_settlement_idempotent settleWorld "SMAQ-1" intentTopup citizenAna
    (by decide) (by rfl) rfl (by rfl) (by rfl) (by decide) (by decide)

/-! ### C6 (stuck settlement) -/

/-- C6: when the final charge fails after the credit succeeded (the stored
balance plus the top-up does not cover `smaqRequired`), settlement leaves the
intent at `paid` (no further transition), keeps exactly the one credit entry
in the ledger (the credit is not reverted, and no charge entry is written),
and the balance reflects the credited amount; the webhook exits through the
distinct stuck-paid branch, surfacing the anomaly instead of retrying. -/
theorem C6_stuck_settlement (w : WorldState) (ref : String)
    (intent : PurchaseIntent) (c : Citizen)
    (href : jsStartsWith ref "SMAQ-" = true)
    (hint : getIntent w.intents ref = some intent)
    (hpend : intent.status = .pending)
    (hc : findCitizenByEmail w.bank intent.userEmail = some c)
    (hcid : lookupCitizen w.bank.citizens c.id = some c)
    (hcr : 0 ≤ c.dracmaBalance + intent.smaqTopup)
    (hch : c.dracmaBalance + intent.smaqTopup - intent.smaqRequired < 0) :
    (onPaymentConfirmed w "APPROVED" (some ref)).2 = .stuckPaid ∧
    (getIntent (onPaymentConfirmed w "APPROVED" (some ref)).1.intents ref).map (·.status)
      = some .paid ∧
    (∃ t1 : DracmaTxn,
      (onPaymentConfirmed w "APPROVED" (some ref)).1.bank.txns = w.bank.txns ++ [t1]
      ∧ t1.ptype = "acreditacion" ∧ t1.amount = intent.smaqTopup) ∧
    SmaqBank.getBalance (onPaymentConfirmed w "APPROVED" (some ref)).1.bank intent.userEmail
      = c.dracmaBalance + intent.smaqTopup := by
  obtain ⟨t1, heq, hcit1, hp1, ha1⟩ :=
    settle_stuck w ref intent c href hint hpend hc hcid hcr hch
  rw [heq]
  refine ⟨rfl, ?_, ⟨t1, rfl, hp1, ha1⟩, ?_⟩
  · rw [getIntent_after_updateStatus, hint]
    rfl
  · exact getBalance_found (findCitizenByEmail_single_set w.bank.citizens
      (w.bank.txns ++ [t1]) c intent.userEmail hc
      (c.dracmaBalance + intent.smaqTopup))

/-- A fixture account whose balance (0) cannot cover the charge even after the
4000 top-up against the 6000 price: `0 + 4000 - 6000 < 0`. -/
def citizenBroke : Citizen := ⟨"c1", "ana@amorina.club", 0⟩

/-- A world in which the settlement charge must fail after the credit. -/
def stuckWorld : WorldState := ⟨⟨[citizenBroke], []⟩, [intentTopup]⟩

/-- C6, witness: the stuck scenario evaluated concretely — intent stays
`paid`, the ledger keeps the single credit entry, the balance is the credited
4000. -/
theorem C6_witness :
    (onPaymentConfirmed stuckWorld "APPROVED" (some "SMAQ-1")).2 = .stuckPaid ∧
    (getIntent (onPaymentConfirmed stuckWorld "APPROVED" (some "SMAQ-1")).1.intents
      "SMAQ-1").map (·.status) = some .paid ∧
    (∃ t1 : DracmaTxn,
      (onPaymentConfirmed stuckWorld "APPROVED" (some "SMAQ-1")).1.bank.txns
        = stuckWorld.bank.txns ++ [t1]
      ∧ t1.ptype = "acreditacion" ∧ t1.amount = intentTopup.smaqTopup) ∧
    SmaqBank.getBalance (onPaymentConfirmed stuckWorld "APPROVED" (some "SMAQ-1")).1.bank
      "ana@amorina.club" = 0 + 4000 :=
  C6_stuck_settlement stuckWorld "SMAQ-1" intentTopup citizenBroke
    (by decide) (by rfl) rfl (by rfl) (by rfl) (by decide) (by decide)

/-! ### C7 (no lazy expiry) -/

/-- An intent whose `expiresAt` (50) lies in the past of the scenario's
wall-clock instant (100) while the intent is still `pending`. -/
def intentLate : PurchaseIntent :=
  ⟨"SMAQ-LATE", "ana@amorina.club", "cine", "{}", 6000, 4000, 4000000, none, 0, 50, .pending⟩

/-- A world holding only the long-expired pending intent. -/
def lateWorld : WorldState := ⟨⟨[citizenAna], []⟩, [intentLate]⟩

/-- C7, counterexample: at wall-clock time 100 the intent `SMAQ-LATE`
(`expiresAt = 50`) is past its expiry and still `pending`.  The claim says the
next access transitions it to `expired` and that a late payment confirmation
performs no credit and no charge; instead, lookup returns it still `pending`,
and the late confirmation settles it fully, appending a credit and a charge
entry to the ledger. -/
theorem C7_counterexample :
    (intentLate.expiresAt < 100 ∧ intentLate.status = .pending) ∧
    (getIntent lateWorld.intents "SMAQ-LATE").map (·.status) = some .pending ∧
    (onPaymentConfirmed lateWorld "APPROVED" (some "SMAQ-LATE")).2 = .completedOk ∧
    (onPaymentConfirmed lateWorld "APPROVED" (some "SMAQ-LATE")).1.bank.txns.length = 2 := by
  refine ⟨⟨by decide, rfl⟩, rfl, ?_, ?_⟩ <;> rfl

/-- C7, amended: expiry is never evaluated — neither `getIntent` nor the
settlement webhook compares `expiresAt` with the clock.  An intent whose
`expiresAt` has passed and is still `pending` is returned as `pending` on the
next access (it does not transition to `expired`), and a late
`onPaymentConfirmed` settles it exactly like a timely one: it credits
`smaqTopup`, charges `smaqRequired` and completes the intent. -/
theorem C7_no_lazy_expiry (w : WorldState) (ref : String)
    (intent : PurchaseIntent) (c : Citizen) (now : Nat)
    (hexp : intent.expiresAt < now)
    (href : jsStartsWith ref "SMAQ-" = true)
    (hint : getIntent w.intents ref = some intent)
    (hpend : intent.status = .pending)
    (hc : findCitizenByEmail w.bank intent.userEmail = some c)
    (hcid : lookupCitizen w.bank.citizens c.id = some c)
    (hcr : 0 ≤ c.dracmaBalance + intent.smaqTopup)
    (hch : 0 ≤ c.dracmaBalance + intent.smaqTopup - intent.smaqRequired) :
    (getIntent w.intents ref).map (·.status) = some .pending ∧
    (onPaymentConfirmed w "APPROVED" (some ref)).2 = .completedOk ∧
    SmaqBank.getBalance (onPaymentConfirmed w "APPROVED" (some ref)).1.bank intent.userEmail
      = c.dracmaBalance + intent.smaqTopup - intent.smaqRequired ∧
    (getIntent (onPaymentConfirmed w "APPROVED" (some ref)).1.intents ref).map (·.status)
      = some .completed := by
  obtain ⟨t1, t2, heq, -, -, -, -, -, -⟩ :=
    settle_success w ref intent c href hint hpend hc hcid hcr hch
  refine ⟨?_, ?_⟩
  · rw [hint, Option.map_some', hpend]
  rw [heq]
  refine ⟨rfl, ?_, ?_⟩
  · exact getBalance_found (findCitizenByEmail_double_set w.bank.citizens
      (w.bank.txns ++ [t1, t2]) c intent.userEmail hc
      (c.dracmaBalance + intent.smaqTopup)
      (c.dracmaBalance + intent.smaqTopup - intent.smaqRequired))
  · rw [getIntent_after_updateStatus, getIntent_after_updateStatus, hint]
    rfl

/-- C7, witness: the amended theorem evaluated on the expired-intent world at
wall-clock time 100. -/
theorem C7_witness :
    (getIntent lateWorld.intents "SMAQ-LATE").map (·.status) = some .pending ∧
    (onPaymentConfirmed lateWorld "APPROVED" (some "SMAQ-LATE")).2 = .completedOk ∧
    SmaqBank.getBalance (onPaymentConfirmed lateWorld "APPROVED" (some "SMAQ-LATE")).1.bank
      "ana@amorina.club" = 2000 + 4000 - 6000 ∧
    (getIntent (onPaymentConfirmed lateWorld "APPROVED" (some "SMAQ-LATE")).1.intents
      "SMAQ-LATE").map (·.status) = some .completed :=
  C7_no_lazy_expiry lateWorld "SMAQ-LATE" intentLate citizenAna 100
    (by decide) (by decide) (by rfl) rfl (by rfl) (by rfl) (by decide) (by decide)

/-! ### C5 (insufficient balance produces a pending intent) -/

theorem setMpPreferenceId_append_fresh_key (store : List PurchaseIntent)
    (r : PurchaseIntent) (p intentId : String) (hi : r.id = intentId)
    (h : getIntent store intentId = none) :
    setMpPreferenceId (store ++ [r]) intentId p =
      store ++ [{ r with mpPreferenceId := some p }] := by
  subst hi
  exact setMpPreferenceId_append_fresh store r p h

/-- C5: when the read balance `B` is below the price `P` (and the request
passes validation, and the freshly generated intent id does not collide with a
stored one), the top-up endpoint creates a `pending` intent with
`smaqRequired = P` and `smaqTopup = (P - B) + suggestExtraSmaqs`, attaches the
checkout preference id to it, and answers `topup_required` carrying the intent
id, the current balance, the shortfall, the top-up amount, its ARS price and
the checkout URL. -/
theorem C5_insufficient_balance_topup (w : WorldState) (req : TopupRequest)
    (idTimestamp idRandom : String) (now : Nat) (mpPreferenceId mpCheckoutUrl : String)
    (h1 : req.email ≠ "") (h2 : req.productType ≠ "") (h3 : 0 < req.smaqPrice)
    (h4 : SmaqBank.getBalance w.bank req.email < req.smaqPrice)
    (h5 : getIntent w.intents (generateIntentId idTimestamp idRandom) = none) :
    topupHandler w req idTimestamp idRandom now mpPreferenceId mpCheckoutUrl =
      ({ w with intents := w.intents ++
          [{ id := generateIntentId idTimestamp idRandom
             userEmail := req.email
             productType := req.productType
             productData := req.productData
             smaqRequired := req.smaqPrice
             smaqTopup := req.smaqPrice - SmaqBank.getBalance w.bank req.email
               + req.suggestExtraSmaqs
             arsAmount := (req.smaqPrice - SmaqBank.getBalance w.bank req.email
               + req.suggestExtraSmaqs) * 1000
             mpPreferenceId := some mpPreferenceId
             createdAt := now
             expiresAt := now + 30 * 60 * 1000
             status := .pending }] },
        .topupRequired (generateIntentId idTimestamp idRandom)
          (SmaqBank.getBalance w.bank req.email)
          (req.smaqPrice - SmaqBank.getBalance w.bank req.email)
          (req.smaqPrice - SmaqBank.getBalance w.bank req.email + req.suggestExtraSmaqs)
          ((req.smaqPrice - SmaqBank.getBalance w.bank req.email
            + req.suggestExtraSmaqs) * 1000)
          mpCheckoutUrl) := by
  unfold topupHandler
  rw [if_neg (by simpa using h1), if_neg (by simpa using h2), if_neg (by omega),
    if_neg (not_le.mpr h4)]
  simp only [createIntent]
  rw [setMpPreferenceId_append_fresh_key w.intents _ mpPreferenceId
    (generateIntentId idTimestamp idRandom) rfl h5]

/-- The insufficient-balance scenario request: product `cine`, price 6000, no
extra SMAQs suggested. -/
def reqCine : TopupRequest := ⟨"ana@amorina.club", "cine", "{}", 6000, 0⟩

/-- The insufficient-balance world: `ana@amorina.club` holds 2000 and no
intents exist yet. -/
def topupWorld : WorldState := ⟨⟨[citizenAna], []⟩, []⟩

/-- C5, witness: the spec's scenario — balance 2000, price 6000 — answers
`topup_required` with `smaqToTopup = 4000` and stores the matching `pending`
intent. -/
theorem C5_witness :
    topupHandler topupWorld reqCine "m3abc" "x7z2" 1000 "PREF-1" "https://mp.example/pay" =
      ({ topupWorld with intents :=
          [{ id := generateIntentId "m3abc" "x7z2"
             userEmail := "ana@amorina.club"
             productType := "cine"
             productData := "{}"
             smaqRequired := 6000
             smaqTopup := 4000
             arsAmount := 4000 * 1000
             mpPreferenceId := some "PREF-1"
             createdAt := 1000
             expiresAt := 1000 + 30 * 60 * 1000
             status := .pending }] },
        .topupRequired (generateIntentId "m3abc" "x7z2") 2000 4000 4000 (4000 * 1000)
          "https://mp.example/pay") := by
  have h := C5_insufficient_balance_topup topupWorld reqCine "m3abc" "x7z2" 1000
    "PREF-1" "https://mp.example/pay" (by decide) (by decide) (by decide) (by decide)
    (by rfl)
  rw [h]
  have hB : SmaqBank.getBalance (⟨[citizenAna], []⟩ : BankState) "ana@amorina.club"
      = 2000 := by rfl
  norm_num [topupWorld, reqCine, hB]

end Amorina
